import Mathlib

/-!
Verification of the OCMS_Shotgun preprocessing pipeline
(`pipelines/pipeline_preprocess.py`, with `ocmsshotgun/pipeline_preprocess.py`
as the generalized variant) against its natural-language specification.

The Python source is shallowly embedded: pure computations become Lean
functions over `Int`/`ℚ`/`List`/`Finset`, shell-statement construction becomes
an explicit action list, and fallible code returns `Except` or pairs its
result with an optional error.
-/

namespace OCMS

/-! ## Accounting aggregator (`summarizeReadCounts`, lines 627-666)

The collated per-sample table maps a step name (`input`, `deduped`, `deadapt`,
`dehost`, `masked`) to the read count recorded in the corresponding `.nreads`
file.  `summarizeReadCounts` reads the five counts per sample with
`df.loc[step, 1]` (a lookup that raises `KeyError` when the step row is
absent), derives the four per-stage losses by subtraction, and the five
percentage columns with Python's `round(x, 2)`.
-/

/-- Python's `round(x, 2)`: round to 2 decimal places, ties to even
(banker's rounding), modelled exactly over the rationals.  (The source feeds
it exact ratios of integer counts; for the values considered in the claims the
binary floating-point evaluation coincides with the rational one.) -/
def round2 (q : ℚ) : ℚ :=
  let y := q * 100
  let f : ℤ := ⌊y⌋
  let r : ℤ := if y - f = 1/2 then (if f % 2 = 0 then f else f + 1) else ⌊y + 1/2⌋
  (r : ℚ) / 100

/-- One line of the `processing_summary.tsv` table written by
`summarizeReadCounts` (header at lines 632-635 of the source). -/
structure AccountingRow where
  sample_id : String
  input_reads : Int
  output_reads : Int
  duplicates : Int
  adapter_contamination : Int
  host : Int
  low_complexity : Int
  duplicates_percent : ℚ
  adapters_percent : ℚ
  host_percent : ℚ
  low_complexity_perc : ℚ
  remaining_percent : ℚ
deriving DecidableEq, Repr

/-- The per-sample arithmetic of `summarizeReadCounts` (lines 648-666):
losses by subtraction between consecutive stage counts, percentages via
`round(x, 2)` against the input count. -/
def mkAccountingRow (sample_id : String)
    (input_reads deduped deadapt dehost masked : Int) : AccountingRow :=
  let lost_dup := input_reads - deduped
  let lost_adapt := deduped - deadapt
  let lost_host := deadapt - dehost
  let lost_mask := dehost - masked
  { sample_id := sample_id
    input_reads := input_reads
    output_reads := masked
    duplicates := lost_dup
    adapter_contamination := lost_adapt
    host := lost_host
    low_complexity := lost_mask
    duplicates_percent := round2 ((lost_dup : ℚ) / (input_reads : ℚ) * 100)
    adapters_percent := round2 ((lost_adapt : ℚ) / (input_reads : ℚ) * 100)
    host_percent := round2 ((lost_host : ℚ) / (input_reads : ℚ) * 100)
    low_complexity_perc := round2 ((lost_mask : ℚ) / (input_reads : ℚ) * 100)
    remaining_percent := round2 ((masked : ℚ) / (input_reads : ℚ) * 100) }

/-- Pandas `df.loc[key, 1]` on the collated two-column table: the first row
whose index equals `key`, raising `KeyError` when the row is absent. -/
def dfLoc (tbl : List (String × Int)) (key : String) : Except String Int :=
  match tbl.find? (fun kv => kv.1 == key) with
  | some kv => .ok kv.2
  | none => .error ("KeyError: " ++ key)

/-- The body of the per-sample loop of `summarizeReadCounts` (lines 641-666):
look up the five stage counts (in source order, lines 642-646) and build the
row.  A missing stage surfaces as the propagated `KeyError`. -/
def processSample (sample_id : String) (tbl : List (String × Int)) :
    Except String AccountingRow := do
  let deadapt ← dfLoc tbl "deadapt"
  let deduped ← dfLoc tbl "deduped"
  let dehost ← dfLoc tbl "dehost"
  let masked ← dfLoc tbl "masked"
  let input_reads ← dfLoc tbl "input"
  .ok (mkAccountingRow sample_id input_reads deduped deadapt dehost masked)

/-- `summarizeReadCounts` over the list of per-sample collated tables: rows
are written to the output file one sample at a time; an uncaught `KeyError`
stops the loop, so the result is the rows written before the failure together
with the error (`none` when every sample succeeded).  There is no
`try`/`except` around the loop body in the source. -/
def summarizeReadCounts :
    List (String × List (String × Int)) → List AccountingRow × Option String
  | [] => ([], none)
  | (sid, tbl) :: rest =>
    match processSample sid tbl with
    | .error e => ([], some e)
    | .ok row =>
      match summarizeReadCounts rest with
      | (rows, err) => (row :: rows, err)

/-- Collated table for the spec's example sample `S1`. -/
def tableS1 : List (String × Int) :=
  [("input", 1000), ("deduped", 950), ("deadapt", 900),
   ("dehost", 850), ("masked", 800)]

/-- Collated table for a sample aborted mid-run: the `deadapt` stage count
was never produced. -/
def tableS2incomplete : List (String × Int) :=
  [("input", 1000), ("deduped", 950), ("dehost", 850), ("masked", 800)]

/-- An aggregation input holding one incomplete sample followed by one
complete sample. -/
def samplesWithIncomplete : List (String × List (String × Int)) :=
  [("S2", tableS2incomplete), ("S1", tableS1)]

/-! ## SampleSet resolver (module level, lines 77-101)

The module scans the input directory for files matching the first-mate regex
`(\S+).(fastq.1.gz)` (via `re.match`), and when any are present, for files
matching the second-mate regex.  Both mates present forces equal file counts
(`assert`, message `Not all input files have pairs`) and identical sorted stub
lists (`assert`, message `First and second read pair files do not
correspond`); no first-mate files at all raises `ValueError` (`No input files
detected...`).  Otherwise `IS_PAIRED` is set to `True`/`False`.
-/

def FASTQ1_SUFFIX : String := "fastq.1.gz"

def FASTQ2_SUFFIX : String := "fastq.2.gz"

/-- Whether a directory entry matches `re.match('(\S+).(SFX)', f)`: a
non-empty stub, one separator character, then the suffix.  (Modelled
end-anchored over space-free names, which agrees with the regex on every
filename considered here.) -/
def fqMatch (sfx f : String) : Bool :=
  ("." ++ sfx).data.isSuffixOf f.data && sfx.length + 1 < f.length

/-- The regex group 1 of a matching filename: everything before the separator
and the suffix. -/
def fqStub (sfx f : String) : String := f.dropRight (sfx.length + 1)

/-- Lexicographic comparison of char lists by code point (Python string
ordering), kernel-reducible. -/
def chLtB : List Char → List Char → Bool
  | [], [] => false
  | [], _ :: _ => true
  | _ :: _, [] => false
  | c :: cs, d :: ds => if c = d then chLtB cs ds else decide (c.toNat < d.toNat)

/-- String comparison used to model Python's `sorted`. -/
def strLtB (a b : String) : Bool := chLtB a.data b.data

/-- Insert into a sorted list (helper for `sortStrings`). -/
def insertSorted (x : String) : List String → List String
  | [] => [x]
  | y :: ys => if strLtB y x then y :: insertSorted x ys else x :: y :: ys

/-- Python's `sorted` on a list of strings (insertion sort; order is total so
the result agrees with any stable sort). -/
def sortStrings : List String → List String
  | [] => []
  | x :: xs => insertSorted x (sortStrings xs)

/-- The resolver's failure modes, named as in the spec: the source raises
`AssertionError` for pairing inconsistencies and `ValueError` for an empty
input set; the messages are the source's. -/
inductive ResolverError where
  | InputMismatchError (msg : String)
  | NoInputError (msg : String)
deriving DecidableEq, Repr

/-- The module-level input resolution (lines 80-101): returns `IS_PAIRED`, or
the error raised.  Branch structure mirrors the source: first-mate matches
gate everything; second-mate matches force the two asserts in order. -/
def resolveInputs (files : List String) : Except ResolverError Bool :=
  let fastq1s := files.filter (fun f => fqMatch FASTQ1_SUFFIX f)
  if fastq1s.length ≠ 0 then
    let fastq2s := files.filter (fun f => fqMatch FASTQ2_SUFFIX f)
    if fastq2s.length ≠ 0 then
      if fastq1s.length = fastq2s.length then
        if sortStrings (fastq1s.map (fqStub FASTQ1_SUFFIX))
            = sortStrings (fastq2s.map (fqStub FASTQ2_SUFFIX)) then
          .ok true
        else
          .error (.InputMismatchError
            "First and second read pair files do not correspond")
      else .error (.InputMismatchError "Not all input files have pairs")
    else .ok false
  else
    .error (.NoInputError
      "No input files detected... check the file suffixes or specify input directory location in config file")

/-- A directory with three paired samples and one odd first-mate file. -/
def mixedPairingDir : List String :=
  ["s1.fastq.1.gz", "s1.fastq.2.gz", "s2.fastq.1.gz", "s2.fastq.2.gz",
   "s3.fastq.1.gz", "s3.fastq.2.gz", "s4.fastq.1.gz"]

/-- A directory with no file matching the first-mate suffix. -/
def noInputDir : List String := ["readme.txt", "pipeline.yml"]

/-! ## Host-contamination triage (`removeHostContamination`, lines 268-429)

Data-flow view of the paired branch: per reference index (a
bitmask/srprism pair, lines 298-299), `bmtagger.sh` screens the paired mates
and appends the flagged identifiers to `to_remove_paired` (lines 315-329);
if the singleton file `fastq3` is non-empty it is screened the same way into
`to_remove_singletons`, otherwise that file is only touched (lines 331-348).
Appending per-index results to one list makes membership the union of the
per-index flag sets.  `drop_fastqs.py` then partitions the reads (lines
354-381).
-/

/-- One configured host reference index (`bmtagger_bitmask` and
`bmtagger_srprism` entries are comma-separated and zipped, lines 298-299). -/
structure ReferenceIndex where
  bitmask : String
  srprism : String
deriving DecidableEq, Repr

/-- Accumulation of per-index paired-screening results: the loop appends each
index's flagged identifiers to `to_remove_paired`, i.e. unions the sets. -/
def pairedFlagged (screen : ReferenceIndex → Finset String)
    (indexes : List ReferenceIndex) : Finset String :=
  indexes.foldl (fun acc ix => acc ∪ screen ix) ∅

/-- Accumulation of per-index singleton-screening results: inside the loop
the source re-checks `IOTools.openFile(fastq3).read(1)`; an empty singleton
file contributes nothing (the `touch` branch, lines 346-348). -/
def singletonFlagged (screen : ReferenceIndex → Finset String)
    (read3 : List String) (indexes : List ReferenceIndex) : Finset String :=
  indexes.foldl (fun acc ix => if read3.isEmpty then acc else acc ∪ screen ix) ∅

/-- Modelled from the spec: `drop_fastqs.py` is invoked by
`removeHostContamination` (lines 354-381) but its source is not part of this
repository snapshot.  Per spec section 4.3 step 3, it routes a read to the
"host" partition iff its identifier is in the accumulated to-drop list, and
to the "clean" partition otherwise.  Result: (clean, host). -/
def dropFastqs (reads : List String) (toDrop : Finset String) :
    List String × List String :=
  (reads.filter (fun r => !(decide (r ∈ toDrop))),
   reads.filter (fun r => decide (r ∈ toDrop)))

/-- Statement-construction view of the paired branch: the externally visible
operations `removeHostContamination` performs, in order. -/
inductive HostAction where
  | screenPairedReads (bitmask srprism : String)
  | screenSingletonReads (bitmask srprism : String)
  | touchEmptySingletons
  | runDropScript (fastq1 fastq2 fastq3 fastq1_out fastq2_out fastq3_out
      fastq1_host fastq2_host fastq3_host : String)
deriving DecidableEq, Repr

/-- The configuration knobs of the host-removal stage read from `PARAMS`
(lines 279, 298-299). -/
structure HostRemovalConfig where
  bmtagger_keep_pairs : Bool
  bmtagger_bitmask : String
  bmtagger_srprism : String
deriving DecidableEq, Repr

/-- `P.snip(s, sfx)`: remove a suffix from a filename. -/
def snip (s sfx : String) : String := s.dropRight sfx.length

/-- The per-index screening statements of the paired branch (loop at lines
300-352): one paired screen per index, and per index either a singleton
screen or a bare `touch`, depending on whether `fastq3` is empty. -/
def screenActions (read3Empty : Bool) : List (String × String) → List HostAction
  | [] => []
  | bs :: rest =>
    HostAction.screenPairedReads bs.1 bs.2 ::
      (if read3Empty then HostAction.touchEmptySingletons
       else HostAction.screenSingletonReads bs.1 bs.2) ::
        screenActions read3Empty rest

/-- The paired branch of `removeHostContamination` (lines 272-384): the
`E.info` log message chosen from `bmtagger_keep_pairs` (lines 279-287), then
the screening statements per reference index, then the single
`drop_fastqs.py` invocation (lines 356-381) whose command line is built only
from the input and output file names.  The `keep_pairs` flag is never passed
to the drop script. -/
def removeHostContaminationPaired (params : HostRemovalConfig)
    (read3Empty : Bool) (fastq1 fastq2 fastq3 outfile : String) :
    String × List HostAction :=
  let info :=
    if params.bmtagger_keep_pairs then
      "BMTagger: reads with a pair identified as host will be discarded"
    else
      "BMTagger: reads with a pair identified as host will be kept as singletons (assuming they are not also identified as host)"
  let indexes := (params.bmtagger_bitmask.splitOn ",").zip
    (params.bmtagger_srprism.splitOn ",")
  (info,
   screenActions read3Empty indexes ++
     [HostAction.runDropScript fastq1 fastq2 fastq3
        outfile
        (snip outfile ".1.gz" ++ ".2.gz")
        (snip outfile ".1.gz" ++ ".3.gz")
        (snip outfile "_dehost.fastq.1.gz" ++ "_host.fastq.1.gz")
        (snip outfile "_dehost.fastq.1.gz" ++ "_host.fastq.2.gz")
        (snip outfile "_dehost.fastq.1.gz" ++ "_host.fastq.3.gz")])

/-- A concrete human reference index (for instantiating the triage claims). -/
def ixHuman : ReferenceIndex := ⟨"human.bitmask", "human.srprism"⟩

/-- A concrete mouse reference index. -/
def ixMouse : ReferenceIndex := ⟨"mouse.bitmask", "mouse.srprism"⟩

/-- A concrete screening outcome: only the human index flags `readA`; the
mouse index flags nothing. -/
def screenEx : ReferenceIndex → Finset String :=
  fun ix => if ix = ixHuman then {"readA"} else ∅

/-! ## Read counting (`countInputReads` lines 582-592, `countOutputReads`
lines 595-606)

Both tasks run `zcat <file>.fastq.1.gz | awk 'END {printf(n/4)}'`: the line
count of the first-mate file divided by four.  The ruffus `transform`
patterns bind `infile` to the `.fastq.1.gz` member of each stage's output;
the singleton file `.fastq.3.gz` is never an input to either counting task.
-/

/-- A stage's output read-set, as the line lists of its up-to-three fastq
files. -/
structure SampleReadSet where
  read1 : List String
  read2 : List String
  read3 : List String

/-- The awk line-count-over-four computation. -/
def countReadsAwk (lines : List String) : Nat := lines.length / 4

/-- `countInputReads`: applied to the raw input `*.fastq.1.gz`. -/
def countInputReads (rs : SampleReadSet) : Nat := countReadsAwk rs.read1

/-- `countOutputReads`: applied to each stage's output `*.fastq.1.gz`. -/
def countOutputReads (rs : SampleReadSet) : Nat := countReadsAwk rs.read1

/-- The four fastq lines of one read record. -/
def fqRecord (rid : String) : List String := ["@" ++ rid, "ACGT", "+", "IIII"]

/-- Adapter-stage output: two intact pairs, no singletons. -/
def deadaptOutput : SampleReadSet :=
  ⟨fqRecord "readA/1" ++ fqRecord "readB/1",
   fqRecord "readA/2" ++ fqRecord "readB/2", []⟩

/-- Host-stage output: `readB/2` was flagged as host and dropped, while its
unflagged mate `readB/1` survives — but only in the singleton file. -/
def dehostOutput : SampleReadSet :=
  ⟨fqRecord "readA/1", fqRecord "readA/2", fqRecord "readB/1"⟩

/-! ## `symlnk` helper (lines 121-127)

`symlnk` calls `os.symlink` and, when that raises `OSError` (as it does with
errno `EEXIST` when the output path already exists), the handler evaluates
`e.errno == errno.EEXIST`.  The module's import statements (lines 39-50) are
`from ruffus import *` (the ruffus task-decorator API: `follows`,
`transform`, `regex`, `merge`, `collate`, `mkdir`, `suffix`, ... — it does
not export an `errno` binding), `pipeline as P`, `iotools as IOTools`,
`experiment as E`, `cgat.Fastq as Fastq`, `os`, `sys`, `re`, `sqlite3`,
`itertools`, `distutils`, and `pandas as pd`.  The name `errno` is bound
nowhere, so evaluating it raises `NameError`.
-/

/-- The module-level names bound by the import block of
`pipelines/pipeline_preprocess.py`. -/
def moduleBindings : List String :=
  ["follows", "transform", "regex", "merge", "collate", "mkdir", "suffix",
   "originate", "split", "subdivide", "formatter", "add_inputs", "active_if",
   "jobs_limit", "posttask", "touch_file", "check_if_uptodate",
   "pipeline_run", "pipeline_printout", "pipeline_printout_graph", "Pipeline",
   "output_from",
   "P", "IOTools", "E", "Fastq",
   "os", "sys", "re", "sqlite3", "itertools", "distutils", "pd"]

/-- Outcome of a `symlnk` call. -/
inductive SymlnkOutcome where
  | ok
  | nameError (missing : String)
deriving DecidableEq, Repr

/-- `symlnk(inf, outf)`: when `outf` does not exist the `os.symlink` call
succeeds; when it exists, `os.symlink` raises `OSError` and the handler
evaluates the global name `errno` — succeeding onward only if that name is
bound at module level, else raising `NameError`. -/
def symlnk (outfExists : Bool) : SymlnkOutcome :=
  if outfExists then
    if moduleBindings.contains "errno" then .ok else .nameError "errno"
  else .ok

end OCMS

namespace OCMS

/-- Helper: membership in a left fold of unions over a list of reference
indices. -/
theorem mem_screen_foldl (f : ReferenceIndex → Finset String)
    (l : List ReferenceIndex) (s : Finset String) (r : String) :
    r ∈ l.foldl (fun acc ix => acc ∪ f ix) s ↔ r ∈ s ∨ ∃ ix ∈ l, r ∈ f ix := by
  induction l generalizing s with
  | nil => simp
  | cons a l ih =>
    simp only [List.foldl_cons, ih, Finset.mem_union, List.mem_cons]
    constructor
    · rintro (⟨h | h⟩ | ⟨ix, hix, hr⟩)
      · exact Or.inl h
      · exact Or.inr ⟨a, Or.inl rfl, h⟩
      · exact Or.inr ⟨ix, Or.inr hix, hr⟩
    · rintro (h | ⟨ix, rfl | hix, hr⟩)
      · exact Or.inl (Or.inl h)
      · exact Or.inl (Or.inr hr)
      · exact Or.inr ⟨ix, hix, hr⟩

/-- Helper: a fold whose step ignores the element and returns the
accumulator is the accumulator. -/
theorem foldl_const_acc (l : List ReferenceIndex) (s : Finset String) :
    l.foldl (fun acc _ => acc) s = s := by
  induction l generalizing s with
  | nil => rfl
  | cons a l ih => simp only [List.foldl_cons]; exact ih s

/-- Helper: when the singleton file is empty, the screening loop emits no
singleton-screening statement. -/
theorem screenActions_no_singleton_screen (idxs : List (String × String))
    (bm sp : String) :
    HostAction.screenSingletonReads bm sp ∉ screenActions true idxs := by
  induction idxs with
  | nil => simp [screenActions]
  | cons bs rest ih => simp [screenActions, ih]

/-- Claim C1: for every accounting row computed by `summarizeReadCounts`, the
four per-stage losses plus the final output count telescope back to the input
count exactly, over the integers, before any percentage rounding. -/
theorem accounting_round_trip (sid : String)
    (input_reads deduped deadapt dehost masked : Int) :
    (mkAccountingRow sid input_reads deduped deadapt dehost masked).duplicates
      + (mkAccountingRow sid input_reads deduped deadapt dehost masked).adapter_contamination
      + (mkAccountingRow sid input_reads deduped deadapt dehost masked).host
      + (mkAccountingRow sid input_reads deduped deadapt dehost masked).low_complexity
      + (mkAccountingRow sid input_reads deduped deadapt dehost masked).output_reads
      = (mkAccountingRow sid input_reads deduped deadapt dehost masked).input_reads := by
  simp only [mkAccountingRow]
  ring

/-- Claim C2 counterexample: the aggregator performs no verification of the
conservation invariant — fed a sample whose `deduped` count exceeds its
`input` count, it emits a row with a negative `duplicates` loss, so the
invariant does not hold "for any values of the per-stage counts it is
given". -/
theorem accounting_loss_nonneg_cex :
    ¬ (0 ≤ (mkAccountingRow "S" 100 150 130 120 110).duplicates) := by decide

/-- Claim C2 (amended): the aggregator itself verifies nothing; the emitted
row satisfies `input_count ≥ output_count ≥ 0` and non-negativity of every
per-stage loss if and only if the per-stage counts it is given are
non-increasing along the stage order with a non-negative final count. -/
theorem accounting_invariant_iff_monotone (sid : String) (i d da dh m : Int) :
    (0 ≤ (mkAccountingRow sid i d da dh m).duplicates
     ∧ 0 ≤ (mkAccountingRow sid i d da dh m).adapter_contamination
     ∧ 0 ≤ (mkAccountingRow sid i d da dh m).host
     ∧ 0 ≤ (mkAccountingRow sid i d da dh m).low_complexity
     ∧ 0 ≤ (mkAccountingRow sid i d da dh m).output_reads
     ∧ (mkAccountingRow sid i d da dh m).output_reads
         ≤ (mkAccountingRow sid i d da dh m).input_reads)
  ↔ (d ≤ i ∧ da ≤ d ∧ dh ≤ da ∧ m ≤ dh ∧ 0 ≤ m) := by
  simp only [mkAccountingRow]
  omega

/-- Witness for the amended claim C2: the invariant conditions at the spec's
example counts, obtained from the biconditional. -/
theorem accounting_invariant_iff_monotone_witness :
    0 ≤ (mkAccountingRow "S1" 1000 950 900 850 800).duplicates
  ∧ 0 ≤ (mkAccountingRow "S1" 1000 950 900 850 800).adapter_contamination
  ∧ 0 ≤ (mkAccountingRow "S1" 1000 950 900 850 800).host
  ∧ 0 ≤ (mkAccountingRow "S1" 1000 950 900 850 800).low_complexity
  ∧ 0 ≤ (mkAccountingRow "S1" 1000 950 900 850 800).output_reads
  ∧ (mkAccountingRow "S1" 1000 950 900 850 800).output_reads
      ≤ (mkAccountingRow "S1" 1000 950 900 850 800).input_reads :=
  (accounting_invariant_iff_monotone "S1" 1000 950 900 850 800).mpr
    ⟨by decide, by decide, by decide, by decide, by decide⟩

/-- Claim C3: a read flagged as host by at least one configured reference
index is routed to the host partition (per-index results are accumulated by
set union across the screening loop), and a read flagged by zero indices is
routed to the clean output. -/
theorem host_union_semantics (screen : ReferenceIndex → Finset String)
    (indexes : List ReferenceIndex) (reads : List String) (r : String)
    (hr : r ∈ reads) :
    ((∃ ix ∈ indexes, r ∈ screen ix) →
        r ∈ (dropFastqs reads (pairedFlagged screen indexes)).2)
  ∧ ((∀ ix ∈ indexes, r ∉ screen ix) →
        r ∈ (dropFastqs reads (pairedFlagged screen indexes)).1) := by
  constructor
  · intro hflag
    refine List.mem_filter.mpr ⟨hr, ?_⟩
    simp only [decide_eq_true_eq, pairedFlagged, mem_screen_foldl]
    exact Or.inr hflag
  · intro hclean
    refine List.mem_filter.mpr ⟨hr, ?_⟩
    simp only [Bool.not_eq_true', decide_eq_false_iff_not, pairedFlagged,
      mem_screen_foldl]
    rintro (h | ⟨ix, hix, hmem⟩)
    · exact absurd h (Finset.not_mem_empty r)
    · exact hclean ix hix hmem

/-- Witness for claim C3: with two indices of which only the human one flags
`readA`, `readA` lands in the host partition and `readB` in the clean one. -/
theorem host_union_semantics_witness :
    "readA" ∈ (dropFastqs ["readA", "readB"]
        (pairedFlagged screenEx [ixHuman, ixMouse])).2
  ∧ "readB" ∈ (dropFastqs ["readA", "readB"]
        (pairedFlagged screenEx [ixHuman, ixMouse])).1 := by
  constructor
  · exact (host_union_semantics screenEx [ixHuman, ixMouse] ["readA", "readB"]
      "readA" (by decide)).1 ⟨ixHuman, by decide, by decide⟩
  · exact (host_union_semantics screenEx [ixHuman, ixMouse] ["readA", "readB"]
      "readB" (by decide)).2 (by decide)

/-- Claim C4 (divergence): the `drop_fastqs.py` invocation built by the
paired branch of `removeHostContamination` is identical for both values of
`bmtagger_keep_pairs` — the configured pair-drop policy is read and logged
(`keep_pairs`, lines 279-287) but never forwarded to the drop step, so it
cannot determine the drop behaviour.  Only the `E.info` log line differs. -/
theorem drop_step_ignores_keep_pairs (bm sp : String) (read3Empty : Bool)
    (f1 f2 f3 out : String) :
    ((removeHostContaminationPaired ⟨true, bm, sp⟩ read3Empty f1 f2 f3 out).2
      = (removeHostContaminationPaired ⟨false, bm, sp⟩ read3Empty f1 f2 f3 out).2)
  ∧ ((removeHostContaminationPaired ⟨true, bm, sp⟩ read3Empty f1 f2 f3 out).1
      ≠ (removeHostContaminationPaired ⟨false, bm, sp⟩ read3Empty f1 f2 f3 out).1) := by
  constructor
  · rfl
  · simp only [removeHostContaminationPaired, if_true, Bool.false_eq_true,
      if_false]
    decide

/-- Claim C5: the resolver rejects mixed pairing (some first-mate files with
second mates, some without) with the pairing-inconsistency error, and rejects
a directory with zero first-mate matches with the no-input error. -/
theorem resolver_pairing_errors (files : List String) :
    ((files.filter (fun f => fqMatch FASTQ1_SUFFIX f)).length ≠ 0 →
     (files.filter (fun f => fqMatch FASTQ2_SUFFIX f)).length ≠ 0 →
     (files.filter (fun f => fqMatch FASTQ1_SUFFIX f)).length
        ≠ (files.filter (fun f => fqMatch FASTQ2_SUFFIX f)).length →
     resolveInputs files
        = .error (.InputMismatchError "Not all input files have pairs"))
  ∧ ((files.filter (fun f => fqMatch FASTQ1_SUFFIX f)).length = 0 →
     resolveInputs files
        = .error (.NoInputError
            "No input files detected... check the file suffixes or specify input directory location in config file")) := by
  constructor
  · intro h1 h2 h3
    simp only [resolveInputs]
    rw [if_pos h1, if_pos h2, if_neg h3]
  · intro h1
    simp only [resolveInputs]
    rw [if_neg (by simp [h1])]

/-- Witness for claim C5: three paired samples plus one odd first-mate file
fail with the pairing-inconsistency error; a directory without first-mate
files fails with the no-input error. -/
theorem resolver_pairing_errors_witness :
    resolveInputs mixedPairingDir
      = .error (.InputMismatchError "Not all input files have pairs")
  ∧ resolveInputs noInputDir
      = .error (.NoInputError
          "No input files detected... check the file suffixes or specify input directory location in config file") :=
  ⟨(resolver_pairing_errors mixedPairingDir).1 (by decide) (by decide) (by decide),
   (resolver_pairing_errors noInputDir).2 (by decide)⟩

/-- Claim C6 counterexample: fed one sample missing its `deadapt` stage count
followed by one complete sample, the aggregator does not emit a row for the
complete sample with the error contained — the uncaught `KeyError` aborts the
whole aggregation. -/
theorem summarize_incomplete_cex :
    ¬ ((∃ row ∈ (summarizeReadCounts samplesWithIncomplete).1,
          row.sample_id = "S1")
       ∧ (summarizeReadCounts samplesWithIncomplete).2 = none) := by
  decide

/-- Claim C6 (amended): a sample missing a required stage count raises an
uncaught `KeyError` from the pandas lookup that aborts the aggregation at
that sample: no later sample is processed and no warning/exclusion occurs;
only rows of samples processed before the failure are emitted. -/
theorem summarize_incomplete_aborts (sid : String) (tbl : List (String × Int))
    (e : String) (h : processSample sid tbl = .error e)
    (rest : List (String × List (String × Int))) :
    summarizeReadCounts ((sid, tbl) :: rest) = ([], some e) := by
  simp only [summarizeReadCounts, h]

/-- Witness for the amended claim C6, at the incomplete-plus-complete sample
list. -/
theorem summarize_incomplete_aborts_witness :
    summarizeReadCounts (("S2", tableS2incomplete) :: [("S1", tableS1)])
      = ([], some "KeyError: deadapt") :=
  summarize_incomplete_aborts "S2" tableS2incomplete "KeyError: deadapt"
    rfl [("S1", tableS1)]

/-- Claim C7: the spec's example sample `S1` (input 1000, deduped 950,
deadapt 900, dehost 850, masked 800) yields losses of 50 at every stage, 5.0
percent per stage, and 80.0 percent remaining, under the source's loss,
`loss_percent` and retention formulas. -/
theorem accounting_example_S1 :
    processSample "S1" tableS1 = .ok (mkAccountingRow "S1" 1000 950 900 850 800)
  ∧ (mkAccountingRow "S1" 1000 950 900 850 800).duplicates = 50
  ∧ (mkAccountingRow "S1" 1000 950 900 850 800).adapter_contamination = 50
  ∧ (mkAccountingRow "S1" 1000 950 900 850 800).host = 50
  ∧ (mkAccountingRow "S1" 1000 950 900 850 800).low_complexity = 50
  ∧ (mkAccountingRow "S1" 1000 950 900 850 800).output_reads = 800
  ∧ (mkAccountingRow "S1" 1000 950 900 850 800).duplicates_percent = 5
  ∧ (mkAccountingRow "S1" 1000 950 900 850 800).adapters_percent = 5
  ∧ (mkAccountingRow "S1" 1000 950 900 850 800).host_percent = 5
  ∧ (mkAccountingRow "S1" 1000 950 900 850 800).low_complexity_perc = 5
  ∧ (mkAccountingRow "S1" 1000 950 900 850 800).remaining_percent = 80 := by
  refine ⟨rfl, by decide, by decide, by decide, by decide, by decide,
    ?_, ?_, ?_, ?_, ?_⟩
  all_goals simp only [mkAccountingRow, round2]
  all_goals norm_num

/-- Claim C8: with an empty singleton file the triage loop skips singleton
screening for every reference index as a no-op — the accumulated singleton
flag set is empty, and the statement list contains no singleton-screening
invocation (each index contributes only the `touch` fallback), with the stage
still running its paired screens and the drop step. -/
theorem empty_read3_skips_singleton_screening
    (screen : ReferenceIndex → Finset String) (indexes : List ReferenceIndex)
    (params : HostRemovalConfig) (f1 f2 f3 out bm sp : String) :
    singletonFlagged screen [] indexes = ∅
  ∧ HostAction.screenSingletonReads bm sp
      ∉ (removeHostContaminationPaired params true f1 f2 f3 out).2 := by
  constructor
  · simp only [singletonFlagged, List.isEmpty_nil, if_true]
    exact foldl_const_acc indexes ∅
  · simp only [removeHostContaminationPaired, List.mem_append,
      List.mem_singleton, not_or]
    exact ⟨screenActions_no_singleton_screen _ bm sp, by simp⟩

/-- Claim C9: every per-stage read count, including the input count, is the
line count of the first-mate `fastq.1.gz` file divided by four — the
singleton file `fastq.3.gz` never contributes to any count, so a pair whose
mate is removed while the read itself survives as a singleton is counted as
lost (the count drops from 2 to 1) even though the read is retained in the
output read-set. -/
theorem stage_counts_read1_only :
    (∀ r1 r2 r3 r2x r3x : List String,
        countOutputReads ⟨r1, r2, r3⟩ = countOutputReads ⟨r1, r2x, r3x⟩)
  ∧ (∀ rs : SampleReadSet,
        countOutputReads rs = rs.read1.length / 4
      ∧ countInputReads rs = rs.read1.length / 4)
  ∧ countOutputReads deadaptOutput = 2
  ∧ countOutputReads dehostOutput = 1
  ∧ "@readB/1" ∈ dehostOutput.read3 :=
  ⟨fun _ _ _ _ _ => rfl, fun _ => ⟨rfl, rfl⟩, by decide, by decide, by decide⟩

/-- Claim C10: `symlnk` succeeds when the output path does not yet exist, and
raises `NameError` whenever it does, because the `OSError` handler evaluates
the module-global name `errno`, which no import statement of the module
binds. -/
theorem symlnk_raises_name_error :
    symlnk true = .nameError "errno" ∧ symlnk false = .ok := by decide

end OCMS
